import Mathlib

/-!
Verification of the MQTT-Streamlit-Client repository's message-handling core
(`src/pages/1_MQTT_Client.py`), embedded shallowly in Lean 4.

Python values are modelled as follows: a decoded JSON value (`json.loads`
result) is `Json`, with Python lists and insertion-ordered dicts as the mutual
types `JsonList` and `JsonFields`; a flat Python `dict` result preserving
insertion order is an ordered association list `List (String × Json)` with
`pyDict` reproducing `dict(items)` semantics (first insertion position, last
value wins); byte strings are `List Nat`; `datetime.now()` timestamps, the
`uuid` generator, `bytes.decode('utf-8')`, `repr(bytes)` and `json.loads` are
external library calls and enter the model as explicit function parameters.
-/

namespace MQTTStreamlit

mutual
/-- A JSON value as returned by `json.loads`: Python `None`/`bool`/number/`str`
nested through `list` and insertion-ordered `dict`.  Numbers are carried
opaquely (the flattening code never computes with them), so an integer payload
suffices for every claim under study. -/
inductive Json where
  | null
  | bool (b : Bool)
  | num (n : Int)
  | str (s : String)
  | arr (elems : JsonList)
  | obj (fields : JsonFields)
deriving DecidableEq

/-- A Python list of JSON values. -/
inductive JsonList where
  | nil
  | cons (hd : Json) (tl : JsonList)
deriving DecidableEq

/-- The insertion-ordered fields of a Python dict of JSON values. -/
inductive JsonFields where
  | fnil
  | fcons (key : String) (val : Json) (tl : JsonFields)
deriving DecidableEq
end

/-- Convenience constructor for array literals. -/
def JsonList.ofList : List Json → JsonList
  | [] => .nil
  | j :: rest => .cons j (JsonList.ofList rest)

/-- Convenience constructor for object literals. -/
def JsonFields.ofList : List (String × Json) → JsonFields
  | [] => .fnil
  | (k, v) :: rest => .fcons k v (JsonFields.ofList rest)

/-- Embeds `new_key = f"{parent_key}{sep}{k}" if parent_key else k` in
`MqttClient._flatten_json`: an empty parent key is falsy in Python. -/
def joinKey (parentKey sep k : String) : String :=
  if parentKey = "" then k else parentKey ++ sep ++ k

/-- One step of Python `dict` insertion: an existing key keeps its position and
takes the new value, a fresh key goes to the back. -/
def dictInsert (acc : List (String × Json)) (kv : String × Json) :
    List (String × Json) :=
  if acc.any (fun p => p.1 = kv.1) then
    acc.map (fun p => if p.1 = kv.1 then (p.1, kv.2) else p)
  else acc ++ [kv]

/-- Python `dict(items)` over an item list, as an ordered association list. -/
def pyDict (items : List (String × Json)) : List (String × Json) :=
  items.foldl dictInsert []

mutual

/-- The `for k, v in json_obj.items()` loop body of
`MqttClient._flatten_json` (src/pages/1_MQTT_Client.py lines 86–104):
a dict value recurses (the recursive call returns a dict, here
`pyDict (flattenFieldItems ..)`, whose `.items()` are spliced in), a list
value runs the enumerate loop, any other value is emitted at `new_key`. -/
def flattenFieldItems (fields : JsonFields) (parentKey sep : String) :
    List (String × Json) :=
  match fields with
  | .fnil => []
  | .fcons k v rest =>
    (match v with
     | .obj fs => pyDict (flattenFieldItems fs (joinKey parentKey sep k) sep)
     | .arr elems => flattenArrItems elems (joinKey parentKey sep k) sep 0
     | scalar => [(joinKey parentKey sep k, scalar)]) ++
    flattenFieldItems rest parentKey sep

/-- The `for i, item in enumerate(v)` loop of `_flatten_json`: a dict element
recurses at `new_key + sep + i` (again through `dict(..).items()`), every
other element (scalars, and lists, which are not specially handled) is
emitted raw at `new_key + sep + i`. -/
def flattenArrItems (elems : JsonList) (newKey sep : String) (i : Nat) :
    List (String × Json) :=
  match elems with
  | .nil => []
  | .cons item rest =>
    (match item with
     | .obj fs => pyDict (flattenFieldItems fs (newKey ++ sep ++ toString i) sep)
     | other => [(newKey ++ sep ++ toString i, other)]) ++
    flattenArrItems rest newKey sep (i + 1)

end

/-- The `items` list built by the loop of `_flatten_json`: empty when the
argument is not a dict. -/
def flattenItems (jsonObj : Json) (parentKey sep : String) :
    List (String × Json) :=
  match jsonObj with
  | .obj fields => flattenFieldItems fields parentKey sep
  | _ => []

/-- Embeds `MqttClient._flatten_json(json_obj, parent_key, sep)`
(lines 86–104): accumulate the item list (empty unless `json_obj` is a dict)
and return `dict(items)`. -/
def _flatten_json (jsonObj : Json) (parentKey : String) (sep : String) :
    List (String × Json) :=
  pyDict (flattenItems jsonObj parentKey sep)

/-- The object `{"a": {"b": 1}, "c": [1, 2]}`. -/
def exNestedObj : Json :=
  .obj (.ofList [("a", .obj (.ofList [("b", .num 1)])),
                 ("c", .arr (.ofList [.num 1, .num 2]))])

/-- The object `{"a": [{"x": 1}, {"x": 2}]}`. -/
def exArrOfObj : Json :=
  .obj (.ofList [("a", .arr (.ofList [.obj (.ofList [("x", .num 1)]),
                                      .obj (.ofList [("x", .num 2)])]))])



/-- Holds exactly on Python dicts. -/
def Json.isObj : Json → Bool
  | .obj _ => true
  | _ => false

/- ### The MQTT client state and its receive callback -/

/-- One row of `MqttClient.messages_received` as appended by `_on_message`
(keys "Serial No.", "Timestamp", "Topic", "Payload"). -/
structure RawRecord where
  serialNo : Nat
  timestamp : String
  topic : String
  payload : String
deriving DecidableEq

/-- One row of `MqttClient.json_messages` as appended by `_on_message`
(keys "Serial No.", "Timestamp", "Topic", "JSON Data", plus the spliced-in
flattened key–value pairs, kept here as a separate field; for the inputs of
the claims under study no flattened key collides with the fixed keys, so the
Python `**flattened_json` splice and this field agree). -/
structure JsonRecord where
  serialNo : Nat
  timestamp : String
  topic : String
  jsonData : Json
  flattened : List (String × Json)
deriving DecidableEq

/-- The mutable state of one `MqttClient` instance.  The wrapped
`paho.mqtt.client` object lives on the broker side of the wire and is not
part of the model; `connect`/`disconnect`/`publish` only touch the fields
below. -/
structure MqttState where
  broker : String
  port : Nat
  client_id : String
  username : Option String
  password : Option String
  is_connected : Bool
  messages_received : List RawRecord
  json_messages : List JsonRecord
deriving DecidableEq

/-- Embeds `MqttClient.__init__` (lines 16–33).  `uuid` stands for the
externally generated `uuid.uuid4()` string used when no client id is given. -/
def MqttClient_init (broker : String) (port : Nat) (clientId : String)
    (uuid : String) (username password : Option String) : MqttState :=
  { broker := broker, port := port,
    client_id := if clientId = "" then "streamlit_mqtt_" ++ uuid else clientId,
    username := username, password := password,
    is_connected := false,
    messages_received := [], json_messages := [] }

/-- Embeds `MqttClient.connect` (lines 106–115) together with the
`_on_connect` callback: `ack` is true when the broker acknowledged with
reason code 0 and no exception occurred, in which case the client is
connected; otherwise it is not. -/
def MqttClient_connect (ack : Bool) (s : MqttState) : MqttState :=
  { s with is_connected := ack }

/-- Embeds `MqttClient.disconnect` (lines 117–123): a no-op unless
connected. -/
def MqttClient_disconnect (s : MqttState) : MqttState :=
  if s.is_connected then { s with is_connected := false } else s

/-- Outcome reported by `MqttClient.publish`. -/
inductive PublishOutcome where
  | published
  | notConnectedWarning
deriving DecidableEq

/-- Embeds `MqttClient.publish` (lines 125–131): when connected it hands the
message to the wrapped paho client (an external network effect that leaves
`MqttState` unchanged), otherwise it emits `st.warning` and does nothing.
Neither branch raises. -/
def MqttClient_publish (s : MqttState) (topic payload : String) (qos : Nat)
    (retain : Bool) : MqttState × PublishOutcome :=
  if s.is_connected then (s, .published) else (s, .notConnectedWarning)

/-- An inbound MQTT message as handed to the receive callback: topic plus raw
payload bytes. -/
structure InboundMsg where
  topic : String
  payload : List Nat
deriving DecidableEq

/-- The `try: msg.payload.decode('utf-8') except UnicodeDecodeError` step of
`_on_message` (lines 49–52): `utf8Decode` is the external UTF-8 decoder
(`none` = `UnicodeDecodeError`), `bytesRepr` the external `repr` of the raw
Python bytes interpolated by the f-string. -/
def decodedPayload (utf8Decode : List Nat → Option String)
    (bytesRepr : List Nat → String) (payload : List Nat) : String :=
  match utf8Decode payload with
  | some s => s
  | none => "Non-UTF-8 payload (raw: " ++ bytesRepr payload ++ ")"

/-- Embeds `MqttClient._on_message` (lines 46–75): decode the payload, append
one raw record with serial `len + 1`, then `try: json.loads(payload)`
(`jsonLoads` is the external parser, `none` = `json.JSONDecodeError`); on
success append one parsed record with its own serial `len + 1` and the
flattened mapping, on failure do nothing more.  `now` is the formatted
`datetime.now()` timestamp. -/
def _on_message (utf8Decode : List Nat → Option String)
    (bytesRepr : List Nat → String)
    (jsonLoads : String → Option Json)
    (now : String) (s : MqttState) (msg : InboundMsg) : MqttState :=
  let payload := decodedPayload utf8Decode bytesRepr msg.payload
  let s1 := { s with messages_received := s.messages_received ++
      [{ serialNo := s.messages_received.length + 1, timestamp := now,
         topic := msg.topic, payload := payload }] }
  match jsonLoads payload with
  | some jsonData =>
      { s1 with json_messages := s1.json_messages ++
          [{ serialNo := s1.json_messages.length + 1, timestamp := now,
             topic := msg.topic, jsonData := jsonData,
             flattened := _flatten_json jsonData "" "_" }] }
  | none => s1

/-- A sequence of deliveries to the receive callback, each with its own
timestamp. -/
def deliverAll (utf8Decode : List Nat → Option String)
    (bytesRepr : List Nat → String)
    (jsonLoads : String → Option Json)
    (s : MqttState) (msgs : List (String × InboundMsg)) : MqttState :=
  msgs.foldl (fun st tm => _on_message utf8Decode bytesRepr jsonLoads tm.1 st tm.2) s

/- ### Session-level state and the UI helper functions -/

/-- One row of `st.session_state.auto_publish_messages`
(a dict with keys Topic, Payload, QoS, Retain). -/
structure ScheduledEntry where
  topic : String
  payload : String
  qos : Int
  retain : Bool
deriving DecidableEq

/-- The part of `st.session_state` the helper functions under study read and
write (lines 163–201), together with `active_publisher_tasks`, which counts
the live `periodic_publisher_task` threads spawned by
`start_periodic_publisher` — runtime state the Python code leaves implicit in
the thread scheduler.  `publish_interval` holds the
`publish_interval_input` widget value. -/
structure SessionState where
  mqtt_client : Option MqttState
  is_mqtt_connected : Bool
  subscribed_topics : List String
  publish_thread_running : Bool
  stop_publish_event : Bool
  messages_df : List RawRecord
  json_messages_df : List JsonRecord
  last_message_count : Nat
  last_json_message_count : Nat
  auto_publish_messages : List ScheduledEntry
  publish_interval : Rat
  broker_address : String
  broker_port : Nat
  client_id : String
  username : String
  password : String
  active_publisher_tasks : Nat
deriving DecidableEq

/-- Embeds `connect_mqtt_ui` (lines 206–221): disconnect a still-connected
prior client, build a fresh `MqttClient` from the connection fields, connect
it (`ack` models the broker acknowledgment, `uuid` the generated id), and
mirror its connected flag into the session. -/
def connect_mqtt_ui (ack : Bool) (uuid : String) (s : SessionState) :
    SessionState :=
  let s' :=
    match s.mqtt_client with
    | some c =>
        if c.is_connected then
          { s with mqtt_client := some (MqttClient_disconnect c) }
        else s
    | none => s
  let fresh := MqttClient_init s'.broker_address s'.broker_port s'.client_id uuid
      (if s'.username = "" then none else some s'.username)
      (if s'.password = "" then none else some s'.password)
  let connected := MqttClient_connect ack fresh
  { s' with mqtt_client := some connected,
            is_mqtt_connected := connected.is_connected }

/-- Embeds `disconnect_mqtt_ui` (lines 223–239): when a client exists,
disconnect it, drop the connected flag and subscriptions, signal and then
re-clear the stop event, clear the running flag, and reset both message
DataFrames and their counters.  Whether a live publisher thread notices the
briefly-set stop event during the 0.1 s sleep is up to the scheduler, so the
task count is left unchanged here (the pessimistic schedule).  With no
client the function only reruns the page. -/
def disconnect_mqtt_ui (s : SessionState) : SessionState :=
  match s.mqtt_client with
  | some c =>
      { s with
        mqtt_client := some (MqttClient_disconnect c),
        is_mqtt_connected := false,
        subscribed_topics := [],
        publish_thread_running := false,
        stop_publish_event := false,
        messages_df := [],
        last_message_count := 0,
        json_messages_df := [],
        last_json_message_count := 0 }
  | none => s

/-- Outcome reported by `start_periodic_publisher`. -/
inductive StartOutcome where
  | started
  | alreadyRunningWarning
  | notConnectedWarning
deriving DecidableEq

/-- Embeds `start_periodic_publisher` (lines 279–301): with a client present
and connected and no publisher marked running, it clears the stop event,
spawns a `periodic_publisher_task` thread (task count + 1) and sets the
running flag; otherwise it only warns.  The entry list and the interval are
read from the session but never validated here. -/
def start_periodic_publisher (s : SessionState) : SessionState × StartOutcome :=
  if s.mqtt_client.isSome && s.is_mqtt_connected then
    if !s.publish_thread_running then
      ({ s with stop_publish_event := false,
                active_publisher_tasks := s.active_publisher_tasks + 1,
                publish_thread_running := true }, .started)
    else (s, .alreadyRunningWarning)
  else (s, .notConnectedWarning)

/-- Outcome reported by `stop_periodic_publisher`. -/
inductive StopOutcome where
  | stopping
  | notRunningInfo
deriving DecidableEq

/-- Embeds `stop_periodic_publisher` (lines 303–311): when the running flag is
set, it sets the stop event and clears the flag, returning immediately
without waiting for any thread to exit; otherwise it only informs. -/
def stop_periodic_publisher (s : SessionState) : SessionState × StopOutcome :=
  if s.publish_thread_running then
    ({ s with stop_publish_event := true,
              publish_thread_running := false }, .stopping)
  else (s, .notRunningInfo)

/-- One live `periodic_publisher_task` thread (lines 313–321) reaching one of
its cancellation checks (`while not stop_event.is_set()` / the per-message
`if stop_event.is_set(): break`): if the shared stop event is set the thread
terminates, otherwise it keeps publishing. -/
def publisher_task_check (s : SessionState) : SessionState :=
  if 0 < s.active_publisher_tasks && s.stop_publish_event then
    { s with active_publisher_tasks := s.active_publisher_tasks - 1 }
  else s

/-- An interleaving alphabet for the publisher lifecycle: the two UI commands
plus a scheduler step in which one live publisher thread reaches a
cancellation check. -/
inductive UiEvent where
  | startPublisher
  | stopPublisher
  | publisherTaskCheck
deriving DecidableEq

/-- One interleaving step. -/
def stepEvent (s : SessionState) : UiEvent → SessionState
  | .startPublisher => (start_periodic_publisher s).1
  | .stopPublisher => (stop_periodic_publisher s).1
  | .publisherTaskCheck => publisher_task_check s

/-- Run a concrete interleaving. -/
def runEvents (s : SessionState) (evs : List UiEvent) : SessionState :=
  evs.foldl stepEvent s

/- ### CSV loading of the periodic schedule -/

/-- One data row of the uploaded CSV, restricted to the four required columns;
cell contents as read. -/
structure CsvRow where
  topic : String
  payload : String
  qos : String
  retain : String
deriving DecidableEq

/-- Decimal-digit run to a number, `none` on an empty or non-digit run. -/
def digitsToNat? (cs : List Char) : Option Nat :=
  if cs = [] then none
  else cs.foldl (fun acc? c => acc?.bind (fun acc =>
        if c.isDigit then some (acc * 10 + (c.toNat - '0'.toNat)) else none))
      (some 0)

/-- Models the external `pd.to_numeric(column, errors='coerce')` cell-wise on
the textual cells under study: an (optionally negated) integer literal
parses, anything else coerces to missing.  (The pandas float and exponent
formats are outside the inputs of the claims.) -/
def pdToNumeric (s : String) : Option Int :=
  match s.data with
  | '-' :: rest => (digitsToNat? rest).map (fun n => -(n : Int))
  | ds => (digitsToNat? ds).map (fun n => (n : Int))

/-- The QoS column conversion of `load_periodic_messages_from_csv`
(lines 338–342): `to_numeric(errors='coerce')` then `.fillna(0).astype(int)`. -/
def coerceQoS (s : String) : Int := (pdToNumeric s).getD 0

/-- ASCII lower-casing of one character, as Python `str.lower` acts on the
cells under study. -/
def pyLowerChar (c : Char) : Char :=
  if c.isUpper then Char.ofNat (c.toNat + 32) else c

/-- Models the external Python `str.lower()` on ASCII cell contents. -/
def pyLower (s : String) : String := String.mk (s.data.map pyLowerChar)

/-- The Retain column conversion (line 346):
`.astype(str).str.lower().isin(['true', '1'])`. -/
def coerceRetain (s : String) : Bool :=
  pyLower s == "true" || pyLower s == "1"

/-- Embeds the row-processing part of `load_periodic_messages_from_csv`
(lines 323–365) on a CSV that has all four required columns: each row becomes
one ScheduledEntry with the QoS and Retain coercions above; Topic and
Payload pass through. -/
def load_periodic_messages_from_csv (rows : List CsvRow) : List ScheduledEntry :=
  rows.map fun r =>
    { topic := r.topic, payload := r.payload,
      qos := coerceQoS r.qos, retain := coerceRetain r.retain }

/- ### Concrete fixtures shared by witnesses and counterexamples -/

/-- A freshly constructed, never-connected client. -/
def client0 : MqttState := MqttClient_init "localhost" 1883 "" "uuid0" none none

/-- A session holding a connected client with no schedule entries, no running
publisher and no live publisher threads. -/
def sessionEmptyEntries : SessionState :=
  { mqtt_client := some (MqttClient_connect true client0),
    is_mqtt_connected := true,
    subscribed_topics := [],
    publish_thread_running := false,
    stop_publish_event := false,
    messages_df := [],
    json_messages_df := [],
    last_message_count := 0,
    last_json_message_count := 0,
    auto_publish_messages := [],
    publish_interval := 1,
    broker_address := "localhost",
    broker_port := 1883,
    client_id := "",
    username := "",
    password := "",
    active_publisher_tasks := 0 }

/-- The same session with one schedule entry but a non-positive interval. -/
def sessionNegInterval : SessionState :=
  { sessionEmptyEntries with
      auto_publish_messages := [{ topic := "t", payload := "p", qos := 0, retain := false }],
      publish_interval := -1 }

/-- The same session with one schedule entry and the default 1 s interval. -/
def sessionReady : SessionState :=
  { sessionEmptyEntries with
      auto_publish_messages := [{ topic := "t", payload := "p", qos := 0, retain := false }] }

/- ### Helper lemmas about the receive callback -/

/-- The callback `_on_message` appends exactly one raw record, with serial number equal to
the raw-log length plus one, in both the JSON and the non-JSON branch. -/
theorem on_message_messages_received (u : List Nat → Option String)
    (r : List Nat → String) (l : String → Option Json)
    (now : String) (s : MqttState) (msg : InboundMsg) :
    (_on_message u r l now s msg).messages_received
      = s.messages_received
        ++ [{ serialNo := s.messages_received.length + 1, timestamp := now,
              topic := msg.topic,
              payload := decodedPayload u r msg.payload }] := by
  cases h : l (decodedPayload u r msg.payload) <;> simp [_on_message, h]

/-- The callback `_on_message` extends the parsed log by one record exactly when
`json.loads` succeeds, and leaves it unchanged otherwise. -/
theorem on_message_json_messages (u : List Nat → Option String)
    (r : List Nat → String) (l : String → Option Json)
    (now : String) (s : MqttState) (msg : InboundMsg) :
    (_on_message u r l now s msg).json_messages
      = match l (decodedPayload u r msg.payload) with
        | some j =>
            s.json_messages
              ++ [{ serialNo := s.json_messages.length + 1, timestamp := now,
                    topic := msg.topic, jsonData := j,
                    flattened := _flatten_json j "" "_" }]
        | none => s.json_messages := by
  cases h : l (decodedPayload u r msg.payload) <;> simp [_on_message, h]

/-- Serial numbers of the raw log after a burst of deliveries: the old
serials followed by the next consecutive run. -/
theorem deliverAll_serials (u : List Nat → Option String)
    (r : List Nat → String) (l : String → Option Json) :
    ∀ (msgs : List (String × InboundMsg)) (s : MqttState),
      ((deliverAll u r l s msgs).messages_received.map (fun rcd => rcd.serialNo))
        = s.messages_received.map (fun rcd => rcd.serialNo)
          ++ List.range' (s.messages_received.length + 1) msgs.length := by
  intro msgs
  induction msgs with
  | nil => intro s; simp [deliverAll]
  | cons m rest ih =>
      intro s
      simp only [deliverAll, List.foldl_cons] at ih ⊢
      rw [ih, on_message_messages_received]
      simp [List.range'_succ]

/- ### The claims -/

/-- C1: `_flatten_json` with the default separator maps
`{"a": {"b": 1}, "c": [1, 2]}` to `{"a_b": 1, "c_0": 1, "c_1": 2}` and
`{"a": [{"x": 1}, {"x": 2}]}` to `{"a_0_x": 1, "a_1_x": 2}`; in general an
object key recurses with the key joined to the path by the separator, an
array element that is an object recurses at path+separator+index, and every
other array element, like every scalar value, is emitted directly at its
path. -/
theorem flatten_json_spec :
    (_flatten_json exNestedObj "" "_"
        = [("a_b", .num 1), ("c_0", .num 1), ("c_1", .num 2)])
    ∧ (_flatten_json exArrOfObj "" "_"
        = [("a_0_x", .num 1), ("a_1_x", .num 2)])
    ∧ (∀ fields parentKey sep,
        flattenItems (.obj fields) parentKey sep
          = flattenFieldItems fields parentKey sep)
    ∧ (∀ k v rest parentKey sep,
        flattenFieldItems (.fcons k v rest) parentKey sep
          = (match v with
             | .obj fs => pyDict (flattenFieldItems fs (joinKey parentKey sep k) sep)
             | .arr elems => flattenArrItems elems (joinKey parentKey sep k) sep 0
             | scalar => [(joinKey parentKey sep k, scalar)]) ++
            flattenFieldItems rest parentKey sep)
    ∧ (∀ item rest newKey sep i,
        flattenArrItems (.cons item rest) newKey sep i
          = (match item with
             | .obj fs => pyDict (flattenFieldItems fs (newKey ++ sep ++ toString i) sep)
             | other => [(newKey ++ sep ++ toString i, other)]) ++
            flattenArrItems rest newKey sep (i + 1)) :=
  ⟨by decide, by decide,
   fun _ _ _ => rfl,
   fun _ v _ _ _ => by cases v <;> rfl,
   fun item _ _ _ _ => by cases item <;> rfl⟩

/-- C2: after any burst of deliveries into a fresh client the raw-log serial
numbers are exactly 1..N in order, and each append assigns serial
(log length + 1) at the moment of the append. -/
theorem raw_log_sequence_spec (u : List Nat → Option String)
    (r : List Nat → String) (l : String → Option Json)
    (broker : String) (port : Nat) (cid uuid : String)
    (un pw : Option String) (msgs : List (String × InboundMsg)) :
    ((deliverAll u r l (MqttClient_init broker port cid uuid un pw) msgs).messages_received.map
        (fun rcd => rcd.serialNo))
      = List.range' 1 msgs.length
    ∧ ∀ (now : String) (s : MqttState) (msg : InboundMsg),
        ∃ rcd,
          (_on_message u r l now s msg).messages_received
              = s.messages_received ++ [rcd]
            ∧ rcd.serialNo = s.messages_received.length + 1 := by
  constructor
  · rw [deliverAll_serials]
    simp [MqttClient_init]
  · intro now s msg
    exact ⟨_, on_message_messages_received u r l now s msg, rfl⟩

/-- C3: every inbound message appends exactly one raw record, and appends a
parsed record exactly when the (decoded) payload parses as JSON — a parse
failure leaves the parsed log unchanged (the callback is total: no branch
raises). -/
theorem on_message_classification_spec (u : List Nat → Option String)
    (r : List Nat → String) (l : String → Option Json)
    (now : String) (s : MqttState) (msg : InboundMsg) :
    ((_on_message u r l now s msg).messages_received.length
        = s.messages_received.length + 1)
    ∧ (_on_message u r l now s msg).json_messages
        = (match l (decodedPayload u r msg.payload) with
           | some j =>
               s.json_messages
                 ++ [{ serialNo := s.json_messages.length + 1, timestamp := now,
                       topic := msg.topic, jsonData := j,
                       flattened := _flatten_json j "" "_" }]
           | none => s.json_messages) := by
  constructor
  · rw [on_message_messages_received]; simp
  · exact on_message_json_messages u r l now s msg

/-- C4: `publish` on a disconnected client raises nothing, reports the
not-connected warning, and returns the client state (logs included)
unchanged. -/
theorem publish_disconnected_spec (s : MqttState) (topic payload : String)
    (qos : Nat) (retain : Bool) (h : s.is_connected = false) :
    MqttClient_publish s topic payload qos retain = (s, .notConnectedWarning) := by
  simp [MqttClient_publish, h]

/-- Witness for C4 at a freshly constructed (hence disconnected) client. -/
theorem publish_disconnected_witness :
    MqttClient_publish client0 "test/message" "hello" 0 false
      = (client0, .notConnectedWarning) :=
  publish_disconnected_spec client0 "test/message" "hello" 0 false rfl

/-- Calling `MqttClient.disconnect` always leaves the client disconnected. -/
theorem disconnect_not_connected (c : MqttState) :
    (MqttClient_disconnect c).is_connected = false := by
  cases hc : c.is_connected <;> simp [MqttClient_disconnect, hc]

/-- C5 counterexample: the core start function accepts a start request with an
empty entry list, and one with a non-positive interval, spawning a publisher
task in both cases — the claimed core-side validation does not exist. -/
theorem start_no_core_validation_cex :
    sessionEmptyEntries.auto_publish_messages = []
    ∧ (start_periodic_publisher sessionEmptyEntries).2 = .started
    ∧ (start_periodic_publisher sessionEmptyEntries).1.active_publisher_tasks = 1
    ∧ sessionNegInterval.publish_interval ≤ 0
    ∧ (start_periodic_publisher sessionNegInterval).2 = .started
    ∧ (start_periodic_publisher sessionNegInterval).1.active_publisher_tasks = 1 :=
  ⟨rfl, rfl, rfl, by norm_num [sessionNegInterval], rfl, rfl⟩

/-- C5 (amended): the core accepts a start request exactly when a client
exists, the session is connected, and no publisher is already marked running;
emptiness of the entry list and the sign of the interval are not checked in
the core (the UI layer prevents those configurations by disabling the button
and flooring the interval input). -/
theorem start_core_checks_spec (s : SessionState) :
    (start_periodic_publisher s).2 = .started
      ↔ (s.mqtt_client.isSome = true ∧ s.is_mqtt_connected = true
          ∧ s.publish_thread_running = false) := by
  unfold start_periodic_publisher
  cases h1 : s.mqtt_client.isSome <;> cases h2 : s.is_mqtt_connected <;>
    cases h3 : s.publish_thread_running <;> simp [h1, h2, h3]

/-- C6: the failing interleaving — start, stop, then an immediate second
start before the first thread reaches a cancellation check.  The second
start is accepted, clears the shared stop event, and spawns a second thread:
two publisher tasks are then live on the same link, and a subsequent
cancellation check terminates neither (the stop event they share was
cleared). -/
theorem two_publisher_tasks_bug :
    (runEvents sessionReady
        [.startPublisher, .stopPublisher, .startPublisher]).active_publisher_tasks = 2
    ∧ (runEvents sessionReady
        [.startPublisher, .stopPublisher, .startPublisher]).stop_publish_event = false
    ∧ publisher_task_check
        (runEvents sessionReady [.startPublisher, .stopPublisher, .startPublisher])
      = runEvents sessionReady [.startPublisher, .stopPublisher, .startPublisher] :=
  ⟨rfl, rfl, rfl⟩

/-- The four-row CSV of C7. -/
def csvRowsC7 : List CsvRow :=
  [{ topic := "t1", payload := "p1", qos := "0", retain := "true" },
   { topic := "t2", payload := "p2", qos := "abc", retain := "False" },
   { topic := "t3", payload := "p3", qos := "2", retain := "1" },
   { topic := "t4", payload := "p4", qos := "1", retain := "no" }]

/-- C7: loading the 4-row table with QoS cells "0","abc","2","1" yields QoS
[0,0,2,1] — any non-numeric cell coerces to 0 — and Retain cells
"true","False","1","no" yield [true,false,true,false] — exactly the
case-insensitive matches of "true" or "1" map to true. -/
theorem csv_coercion_spec :
    ((load_periodic_messages_from_csv csvRowsC7).map (fun e => e.qos)
        = [0, 0, 2, 1])
    ∧ ((load_periodic_messages_from_csv csvRowsC7).map (fun e => e.retain)
        = [true, false, true, false])
    ∧ (∀ s, pdToNumeric s = none → coerceQoS s = 0)
    ∧ (∀ s, coerceRetain s = (pyLower s == "true" || pyLower s == "1")) := by
  refine ⟨by decide, by decide, ?_, fun _ => rfl⟩
  intro s h
  simp [coerceQoS, h]

/-- C7 witness: the non-numeric cell "abc" coerces to QoS 0. -/
theorem csv_coercion_witness :
    pdToNumeric "abc" = none ∧ coerceQoS "abc" = 0 :=
  ⟨by decide, csv_coercion_spec.2.2.1 "abc" (by decide)⟩

/-- C8: a payload that fails UTF-8 decoding is still appended to the raw log
— exactly one new record, not dropped, no exception — with the tagged
"Non-UTF-8 payload" marker carrying the repr of the raw bytes as its payload
field. -/
theorem undecodable_payload_spec (u : List Nat → Option String)
    (r : List Nat → String) (l : String → Option Json)
    (now : String) (s : MqttState) (msg : InboundMsg)
    (h : u msg.payload = none) :
    (_on_message u r l now s msg).messages_received
      = s.messages_received
        ++ [{ serialNo := s.messages_received.length + 1, timestamp := now,
              topic := msg.topic,
              payload := "Non-UTF-8 payload (raw: " ++ r msg.payload ++ ")" }] := by
  rw [on_message_messages_received]
  simp [decodedPayload, h]

/-- C8 witness: a concrete undecodable delivery into a fresh client. -/
theorem undecodable_payload_witness :
    (_on_message (fun _ => none) (fun _ => "b-255") (fun _ => none) "ts" client0
        { topic := "top", payload := [255] }).messages_received
      = [{ serialNo := 1, timestamp := "ts", topic := "top",
           payload := "Non-UTF-8 payload (raw: b-255)" }] :=
  undecodable_payload_spec (fun _ => none) (fun _ => "b-255") (fun _ => none)
    "ts" client0 { topic := "top", payload := [255] } rfl

/-- C9: `disconnect_mqtt_ui` clears both message DataFrames and their
counters, and the reconnect replaces the client by a freshly constructed one
with empty logs, so the first delivered message is assigned raw serial
number 1 again (and parsed serial number 1 when its payload parses as
JSON). -/
theorem disconnect_reconnect_spec (s : SessionState) (c : MqttState)
    (h : s.mqtt_client = some c) (uuid : String)
    (u : List Nat → Option String) (r : List Nat → String)
    (l : String → Option Json) (now : String) (msg : InboundMsg) :
    (disconnect_mqtt_ui s).messages_df = []
    ∧ (disconnect_mqtt_ui s).json_messages_df = []
    ∧ (disconnect_mqtt_ui s).last_message_count = 0
    ∧ (disconnect_mqtt_ui s).last_json_message_count = 0
    ∧ ∃ c2,
        (connect_mqtt_ui true uuid (disconnect_mqtt_ui s)).mqtt_client = some c2
        ∧ c2.messages_received = [] ∧ c2.json_messages = []
        ∧ ((_on_message u r l now c2 msg).messages_received.map
            (fun rcd => rcd.serialNo)) = [1]
        ∧ ((_on_message u r l now c2 msg).json_messages.map
            (fun rcd => rcd.serialNo))
          = (if (l (decodedPayload u r msg.payload)).isSome then [1] else []) := by
  refine ⟨by simp [disconnect_mqtt_ui, h], by simp [disconnect_mqtt_ui, h],
          by simp [disconnect_mqtt_ui, h], by simp [disconnect_mqtt_ui, h], ?_⟩
  refine ⟨MqttClient_connect true (MqttClient_init s.broker_address s.broker_port
      s.client_id uuid (if s.username = "" then none else some s.username)
      (if s.password = "" then none else some s.password)), ?_, rfl, rfl, ?_, ?_⟩
  · simp [connect_mqtt_ui, disconnect_mqtt_ui, h, disconnect_not_connected,
      MqttClient_connect, MqttClient_init]
  · rw [on_message_messages_received]
    simp [MqttClient_connect, MqttClient_init]
  · rw [on_message_json_messages]
    cases hp : l (decodedPayload u r msg.payload) <;>
      simp [hp, MqttClient_connect, MqttClient_init]

/-- C9 witness: disconnect and reconnect on a concrete connected session,
then deliver one non-JSON message. -/
theorem disconnect_reconnect_witness :
    (disconnect_mqtt_ui sessionReady).messages_df = []
    ∧ (disconnect_mqtt_ui sessionReady).json_messages_df = []
    ∧ (disconnect_mqtt_ui sessionReady).last_message_count = 0
    ∧ (disconnect_mqtt_ui sessionReady).last_json_message_count = 0
    ∧ ∃ c2,
        (connect_mqtt_ui true "u2" (disconnect_mqtt_ui sessionReady)).mqtt_client
            = some c2
        ∧ c2.messages_received = [] ∧ c2.json_messages = []
        ∧ ((_on_message (fun _ => some "x") (fun _ => "") (fun _ => none) "ts" c2
              { topic := "top", payload := [120] }).messages_received.map
            (fun rcd => rcd.serialNo)) = [1]
        ∧ ((_on_message (fun _ => some "x") (fun _ => "") (fun _ => none) "ts" c2
              { topic := "top", payload := [120] }).json_messages.map
            (fun rcd => rcd.serialNo)) = [] :=
  disconnect_reconnect_spec sessionReady (MqttClient_connect true client0) rfl "u2"
    (fun _ => some "x") (fun _ => "") (fun _ => none) "ts"
    { topic := "top", payload := [120] }

/-- C10: flattening any non-object top-level JSON value — scalar, string, or
array — yields the empty mapping, and a parsed record built from such a
payload is still appended to the parsed log, carrying no flattened
key–scalar pairs. -/
theorem flatten_non_object_spec (j : Json) (parentKey sep : String)
    (hj : j.isObj = false)
    (u : List Nat → Option String) (r : List Nat → String)
    (l : String → Option Json) (now : String) (s : MqttState) (msg : InboundMsg)
    (hparse : l (decodedPayload u r msg.payload) = some j) :
    _flatten_json j parentKey sep = []
    ∧ (_on_message u r l now s msg).json_messages
        = s.json_messages
          ++ [{ serialNo := s.json_messages.length + 1, timestamp := now,
                topic := msg.topic, jsonData := j, flattened := [] }] := by
  have hflat : ∀ pk sp, _flatten_json j pk sp = [] := by
    intro pk sp
    cases j <;> simp_all [Json.isObj, _flatten_json, flattenItems, pyDict]
  refine ⟨hflat parentKey sep, ?_⟩
  rw [on_message_json_messages, hparse]
  simp [hflat]

/-- C10 witness: the payload "5" parses to the scalar 5, whose flattening is
empty, and the parsed record is appended with an empty mapping. -/
theorem flatten_non_object_witness :
    _flatten_json (.num 5) "" "_" = []
    ∧ (_on_message (fun _ => some "5") (fun _ => "") (fun _ => some (.num 5))
        "ts" client0 { topic := "top", payload := [53] }).json_messages
      = [{ serialNo := 1, timestamp := "ts", topic := "top",
           jsonData := .num 5, flattened := [] }] :=
  flatten_non_object_spec (.num 5) "" "_" rfl (fun _ => some "5") (fun _ => "")
    (fun _ => some (.num 5)) "ts" client0 { topic := "top", payload := [53] } rfl

end MQTTStreamlit
